import Mathlib

/-!
Verification of the kqueue event-demultiplexer core of the mio repository
(`src/os/kqueue.rs`): the `Selector` (change buffer + kernel wait) and the
`Events` batch with its kevent-to-`IoEvent` translation.

The kernel (`kevent` syscall) is external to the repository; it is modelled
as an oracle value of type `Kernel`, a function from the submitted change
list, the event-list capacity and the timeout to either an errno or the
list of delivered kevents.  The repository code never inspects the errno,
so the oracle is fully general.
-/

/-- Modelled from the nix crate's kqueue bindings: the kernel event filter.
`read` is `EVFILT_READ`, `write` is `EVFILT_WRITE`; `other n` stands for
the remaining kqueue filters (AIO, VNODE, PROC, SIGNAL, TIMER, ...). -/
inductive EventFilter
  | read
  | write
  | other (n : Nat)
deriving DecidableEq, Repr, Inhabited

/-- Modelled from the nix crate's kqueue bindings: the `EV_*` flag bitmask,
one Boolean per flag this code touches (`EV_ADD`, `EV_DELETE`, `EV_ENABLE`,
`EV_DISABLE`, `EV_ONESHOT`, `EV_CLEAR`, `EV_EOF`, `EV_OOBAND`). -/
structure EventFlag where
  add : Bool := false
  delete : Bool := false
  enable : Bool := false
  disable : Bool := false
  oneshot : Bool := false
  clear : Bool := false
  eof : Bool := false
  ooband : Bool := false
deriving DecidableEq, Repr, Inhabited

/-- Modelled from the nix crate's kqueue bindings: one kernel event record.
`fflags` is the `FilterFlag` bitmask, modelled as a bare bitmask number
since the code only asks whether it is empty. -/
structure KEvent where
  ident : Nat := 0
  filter : EventFilter := .other 0
  flags : EventFlag := {}
  fflags : Nat := 0
  data : Nat := 0
  udata : Nat := 0
deriving DecidableEq, Repr, Inhabited

/-- Modelled from the nix crate's kqueue bindings: `ev_set` fills every
field of a kevent record (`data` is zeroed). -/
def ev_set (ident : Nat) (filter : EventFilter) (flags : EventFlag)
    (fflags : Nat) (udata : Nat) : KEvent :=
  { ident := ident, filter := filter, flags := flags, fflags := fflags,
    data := 0, udata := udata }

/-- Modelled from the spec: the repository's `event` module (the `Interest`
bitset) is not under `src/`.  Spec section 4.1 gives the bits READABLE,
WRITABLE, HANGUP, ERROR, OUT_OF_BAND; they combine by union.  The source's
`Interest::hinted()` marker has no counterpart in the spec's vocabulary and
is modelled as the empty set. -/
structure Interest where
  readable : Bool := false
  writable : Bool := false
  hup : Bool := false
  error : Bool := false
  oob : Bool := false
deriving DecidableEq, Repr, Inhabited

/-- Bitset union of two `Interest` values. -/
def Interest.union (a b : Interest) : Interest :=
  { readable := a.readable || b.readable
    writable := a.writable || b.writable
    hup := a.hup || b.hup
    error := a.error || b.error
    oob := a.oob || b.oob }

/-- Bitset containment: every bit of `b` is present in `a`. -/
def Interest.targets (a b : Interest) : Bool :=
  (!b.readable || a.readable) && (!b.writable || a.writable) &&
  (!b.hup || a.hup) && (!b.error || a.error) && (!b.oob || a.oob)

/-- `Interest::readable()`: the single READABLE bit. -/
def Interest.readableBit : Interest := { readable := true }

/-- `Interest::writable()`: the single WRITABLE bit. -/
def Interest.writableBit : Interest := { writable := true }

/-- `Interest::hup()`: the single HANGUP bit. -/
def Interest.hupBit : Interest := { hup := true }

/-- `Interest::error()`: the single ERROR bit. -/
def Interest.errorBit : Interest := { error := true }

/-- `Interest::oob()`: the single OUT_OF_BAND bit. -/
def Interest.oobBit : Interest := { oob := true }

/-- `Interest::hinted()`: modelled as the empty set (see `Interest`). -/
def Interest.hinted : Interest := {}

/-- Modelled from the spec: the repository's `event` module (the `PollOpt`
bitset) is not under `src/`.  Spec section 4.1 gives the bits EDGE, LEVEL,
ONESHOT. -/
structure PollOpt where
  edge : Bool := false
  level : Bool := false
  oneshot : Bool := false
deriving DecidableEq, Repr, Inhabited

/-- Bitset containment for `PollOpt`. -/
def PollOpt.targets (a b : PollOpt) : Bool :=
  (!b.edge || a.edge) && (!b.level || a.level) && (!b.oneshot || a.oneshot)

/-- `PollOpt::edge()`: the single EDGE bit. -/
def PollOpt.edgeBit : PollOpt := { edge := true }

/-- `PollOpt::level()`: the single LEVEL bit. -/
def PollOpt.levelBit : PollOpt := { level := true }

/-- `PollOpt::oneshot()`: the single ONESHOT bit. -/
def PollOpt.oneshotBit : PollOpt := { oneshot := true }

/-- Modelled from the spec: one readiness delivery, the pair of the
`Interest` set that fired and the caller's token (spec section 4.2). -/
structure IoEvent where
  kind : Interest
  token : Nat
deriving DecidableEq, Repr, Inhabited

/-- `IoEvent::new`. -/
def IoEvent.new (kind : Interest) (token : Nat) : IoEvent :=
  { kind := kind, token := token }

/-- The two `panic!` sites of `Events::get`, modelled as an abort value:
`invalidIndex` is the out-of-bounds panic, `badFilter` the
unexpected-filter panic. -/
inductive GetAbort
  | invalidIndex
  | badFilter (f : EventFilter)
deriving DecidableEq, Repr

/-- `Events`: a vector of kernel event records with capacity 1024
(`Events::new` uses `Vec::with_capacity(1024)`). -/
structure Events where
  events : List KEvent
deriving DecidableEq, Repr, Inhabited

/-- The capacity of an `Events` vector (`Vec::with_capacity(1024)`). -/
def eventsCapacity : Nat := 1024

/-- `Events::new`. -/
def Events.new : Events := ⟨[]⟩

/-- `Events::len`. -/
def Events.len (e : Events) : Nat := e.events.length

/-- `Events::is_full`: the length has reached the capacity. -/
def Events.full (e : Events) : Bool := e.len == eventsCapacity

/-- `Events::get`: translate the kevent at `idx` into an `IoEvent`.
Out-of-range indices and filters other than `EVFILT_READ`/`EVFILT_WRITE`
panic in the source; both panics are modelled as `GetAbort` errors.  The
interest starts from `Interest::hinted()`, adds READABLE or WRITABLE from
the filter, and, when `EV_EOF` is set, adds HANGUP, then ERROR when
`fflags` is non-empty, then OUT_OF_BAND when `EV_OOBAND` is set. -/
def Events.get (evts : Events) (idx : Nat) : Except GetAbort IoEvent :=
  if h : idx < evts.events.length then
    let ev := evts.events[idx]
    let token := ev.udata
    let base : Except GetAbort Interest :=
      if ev.filter = EventFilter.read then
        .ok (Interest.hinted.union Interest.readableBit)
      else if ev.filter = EventFilter.write then
        .ok (Interest.hinted.union Interest.writableBit)
      else
        .error (.badFilter ev.filter)
    match base with
    | .error a => .error a
    | .ok k1 =>
      let k2 :=
        if ev.flags.eof then
          let ka := k1.union Interest.hupBit
          let kb := if ev.fflags ≠ 0 then ka.union Interest.errorBit else ka
          if ev.flags.ooband then kb.union Interest.oobBit else kb
        else k1
      .ok (IoEvent.new k2 token)
  else
    .error .invalidIndex

example :
    (Events.mk [{ filter := .read, udata := 7 }]).get 0 =
      .ok (IoEvent.new { readable := true } 7) := rfl

example :
    (Events.mk [{ filter := .read, flags := { eof := true, ooband := true },
                  fflags := 1, udata := 7 }]).get 0 =
      .ok (IoEvent.new
        { readable := true, hup := true, error := true, oob := true } 7) := rfl

example : (Events.mk []).get 0 = .error .invalidIndex := rfl

/-- Errno values the spec's failure semantics single out; every other
errno is `other n`. -/
inductive Errno
  | eintr
  | ebadf
  | other (n : Nat)
deriving DecidableEq, Repr

/-- The kernel `kevent` syscall, modelled as an oracle: given the kqueue
descriptor, the submitted change list, the capacity of the caller's event
list, and the timeout in milliseconds, it returns either an errno or the
list of kevents it wrote into the event list (`cnt` delivered records). -/
structure Kernel where
  call : Nat → List KEvent → Nat → Nat → Except Errno (List KEvent)

/-- `Selector`: the kqueue descriptor plus the pending change buffer
(`changes`, an `Events` vector of capacity 1024). -/
structure Selector where
  kq : Nat := 0
  changes : Events := Events.new
deriving Repr

/-- `Selector::new` with the kqueue descriptor returned by the kernel. -/
def Selector.new (kq : Nat) : Selector := { kq := kq, changes := Events.new }

/-- `Selector::maybe_flush_changes`: when the change buffer is full, submit
it with a zero-timeout, zero-capacity `kevent` call and clear it; a kernel
error is returned with the buffer left untouched (the `clear` only runs
after a successful call). -/
def Selector.maybe_flush_changes (s : Selector) (k : Kernel) :
    Selector × Option Errno :=
  if s.changes.full then
    match k.call s.kq s.changes.events 0 0 with
    | .error e => (s, some e)
    | .ok _ => ({ s with changes := ⟨[]⟩ }, none)
  else
    (s, none)

/-- `Selector::ev_push`: flush if full, then append one change record built
by `ev_set` with empty `fflags`.  A flush error aborts before the append. -/
def Selector.ev_push (s : Selector) (k : Kernel) (fd token : Nat)
    (filter : EventFilter) (flags : EventFlag) : Selector × Option Errno :=
  match s.maybe_flush_changes k with
  | (s1, some e) => (s1, some e)
  | (s1, none) =>
    ({ s1 with changes := ⟨s1.changes.events ++ [ev_set fd filter flags 0 token]⟩ },
     none)

/-- The flag word built by `Selector::ev_register`: `EV_ADD`, then
`EV_ENABLE` or `EV_DISABLE` from `enable`, then `EV_CLEAR` when the opts
contain EDGE, then `EV_ONESHOT` when the opts contain ONESHOT. -/
def evRegisterFlags (enable : Bool) (opts : PollOpt) : EventFlag :=
  let flags0 : EventFlag := { add := true }
  let flags1 :=
    if enable then { flags0 with enable := true }
    else { flags0 with disable := true }
  let flags2 :=
    if opts.targets PollOpt.edgeBit then { flags1 with clear := true }
    else flags1
  if opts.targets PollOpt.oneshotBit then { flags2 with oneshot := true }
  else flags2

/-- `Selector::ev_register`: push one change record for `filter` with the
flag word of `evRegisterFlags` and the caller's token. -/
def Selector.ev_register (s : Selector) (k : Kernel) (fd token : Nat)
    (filter : EventFilter) (enable : Bool) (opts : PollOpt) :
    Selector × Option Errno :=
  s.ev_push k fd token filter (evRegisterFlags enable opts)

/-- `Selector::register`: one change record per kernel filter — the read
filter enabled iff the interests contain READABLE, then the write filter
enabled iff they contain WRITABLE.  An error from the first push aborts
before the second. -/
def Selector.register (s : Selector) (k : Kernel) (fd token : Nat)
    (interests : Interest) (opts : PollOpt) : Selector × Option Errno :=
  match s.ev_register k fd token .read
      (interests.targets Interest.readableBit) opts with
  | (s1, some e) => (s1, some e)
  | (s1, none) =>
    s1.ev_register k fd token .write
      (interests.targets Interest.writableBit) opts

/-- `Selector::reregister`: identical to `register` (kqueue treats `EV_ADD`
on a present fd as a modification). -/
def Selector.reregister (s : Selector) (k : Kernel) (fd token : Nat)
    (interests : Interest) (opts : PollOpt) : Selector × Option Errno :=
  s.register k fd token interests opts

/-- `Selector::deregister`: push `EV_DELETE` for both filters with token 0. -/
def Selector.deregister (s : Selector) (k : Kernel) (fd : Nat) :
    Selector × Option Errno :=
  match s.ev_push k fd 0 .read { delete := true } with
  | (s1, some e) => (s1, some e)
  | (s1, none) => s1.ev_push k fd 0 .write { delete := true }

/-- `Selector::select`: submit the pending changes and wait in one `kevent`
call; on success clear the change buffer and resize the caller's event
vector to the delivered records.  On error the change buffer and the event
vector are untouched (`clear` and `set_len` only run after the call). -/
def Selector.select (s : Selector) (k : Kernel) (evts : Events)
    (timeout : Nat) : Selector × Events × Option Errno :=
  match k.call s.kq s.changes.events eventsCapacity timeout with
  | .error e => (s, evts, some e)
  | .ok delivered => ({ s with changes := ⟨[]⟩ }, ⟨delivered⟩, none)

/-- One registration-mutating call on the `Selector`. -/
inductive Op
  | register (fd token : Nat) (i : Interest) (o : PollOpt)
  | reregister (fd token : Nat) (i : Interest) (o : PollOpt)
  | deregister (fd : Nat)

/-- Apply one call, keeping the selector state whether or not the call
reported an error (in the source the selector persists across errors). -/
def applyOp (k : Kernel) (s : Selector) : Op → Selector
  | .register fd t i o => (s.register k fd t i o).1
  | .reregister fd t i o => (s.reregister k fd t i o).1
  | .deregister fd => (s.deregister k fd).1

/-- Run a sequence of registration-mutating calls. -/
def runOps (k : Kernel) (s : Selector) : List Op → Selector
  | [] => s
  | op :: rest => runOps k (applyOp k s op) rest

/-- A kernel oracle that always succeeds delivering nothing. -/
def okKernel : Kernel := ⟨fun _ _ _ _ => .ok []⟩

example :
    ((Selector.new 3).register okKernel 4 7 { readable := true }
        { edge := true }).1.changes.events =
      [ev_set 4 .read { add := true, enable := true, clear := true } 0 7,
       ev_set 4 .write { add := true, disable := true, clear := true } 0 7] :=
  rfl

example :
    ((Selector.new 3).deregister okKernel 4).1.changes.events =
      [ev_set 4 .read { delete := true } 0 0,
       ev_set 4 .write { delete := true } 0 0] :=
  rfl

lemma targets_readableBit (i : Interest) :
    i.targets Interest.readableBit = i.readable := by
  simp [Interest.targets, Interest.readableBit]

lemma targets_writableBit (i : Interest) :
    i.targets Interest.writableBit = i.writable := by
  simp [Interest.targets, Interest.writableBit]

lemma targets_edgeBit (o : PollOpt) : o.targets PollOpt.edgeBit = o.edge := by
  simp [PollOpt.targets, PollOpt.edgeBit]

lemma targets_oneshotBit (o : PollOpt) :
    o.targets PollOpt.oneshotBit = o.oneshot := by
  simp [PollOpt.targets, PollOpt.oneshotBit]

lemma evRegisterFlags_eq (enable : Bool) (o : PollOpt) :
    evRegisterFlags enable o =
      { add := true, enable := enable, disable := !enable,
        clear := o.edge, oneshot := o.oneshot } := by
  rcases o with ⟨oe, ol, os⟩
  cases enable <;> cases oe <;> cases os <;> rfl

lemma maybe_flush_err_eq (s : Selector) (k : Kernel) (s1 : Selector)
    (e : Errno) (h : s.maybe_flush_changes k = (s1, some e)) : s1 = s := by
  unfold Selector.maybe_flush_changes at h
  split at h
  · split at h
    · exact (Prod.mk.injEq .. ▸ h).1.symm ▸ rfl
    · simp at h
  · simp at h

lemma maybe_flush_none_lt (s : Selector) (k : Kernel) (s1 : Selector)
    (hle : s.changes.events.length ≤ eventsCapacity)
    (h : s.maybe_flush_changes k = (s1, none)) :
    s1.changes.events.length < eventsCapacity := by
  unfold Selector.maybe_flush_changes at h
  split at h
  next hfull =>
    split at h
    · simp at h
    · cases h
      simp [eventsCapacity]
  next hfull =>
    cases h
    have hne : s.changes.events.length ≠ eventsCapacity := by
      simpa [Events.full, Events.len] using hfull
    omega

lemma ev_push_len_le (s : Selector) (k : Kernel) (fd t : Nat)
    (f : EventFilter) (fl : EventFlag)
    (h : s.changes.events.length ≤ eventsCapacity) :
    (s.ev_push k fd t f fl).1.changes.events.length ≤ eventsCapacity := by
  unfold Selector.ev_push
  rcases hm : s.maybe_flush_changes k with ⟨s1, oe⟩
  cases oe with
  | some e =>
    have := maybe_flush_err_eq s k s1 e hm
    subst this
    simpa using h
  | none =>
    have hlt := maybe_flush_none_lt s k s1 h hm
    simp [List.length_append]
    omega

lemma ev_push_not_full (s : Selector) (k : Kernel) (fd t : Nat)
    (f : EventFilter) (fl : EventFlag)
    (h : s.changes.events.length < eventsCapacity) :
    s.ev_push k fd t f fl =
      ({ s with changes := ⟨s.changes.events ++ [ev_set fd f fl 0 t]⟩ },
       none) := by
  have hfull : s.changes.full = false := by
    simp [Events.full, Events.len]
    omega
  simp [Selector.ev_push, Selector.maybe_flush_changes, hfull]

lemma register_spec (s : Selector) (k : Kernel) (fd t : Nat) (i : Interest)
    (o : PollOpt) (h : s.changes.events.length + 2 ≤ eventsCapacity) :
    s.register k fd t i o =
      ({ s with changes := ⟨s.changes.events ++
          [ev_set fd .read (evRegisterFlags i.readable o) 0 t,
           ev_set fd .write (evRegisterFlags i.writable o) 0 t]⟩ },
       none) := by
  have h1 : s.changes.events.length < eventsCapacity := by omega
  unfold Selector.register Selector.ev_register
  rw [targets_readableBit, targets_writableBit,
      ev_push_not_full s k fd t .read _ h1]
  dsimp only
  have h2 : ((⟨s.kq, ⟨s.changes.events ++
      [ev_set fd .read (evRegisterFlags i.readable o) 0 t]⟩⟩ :
        Selector)).changes.events.length < eventsCapacity := by
    simp [List.length_append]
    omega
  rw [ev_push_not_full _ k fd t .write _ h2]
  simp

lemma register_len_le (s : Selector) (k : Kernel) (fd t : Nat)
    (i : Interest) (o : PollOpt)
    (h : s.changes.events.length ≤ eventsCapacity) :
    (s.register k fd t i o).1.changes.events.length ≤ eventsCapacity := by
  unfold Selector.register Selector.ev_register
  rcases hp : s.ev_push k fd t .read
      (evRegisterFlags (i.targets Interest.readableBit) o) with ⟨s1, oe⟩
  have h1 : s1.changes.events.length ≤ eventsCapacity := by
    have := ev_push_len_le s k fd t .read
      (evRegisterFlags (i.targets Interest.readableBit) o) h
    rw [hp] at this
    exact this
  cases oe with
  | some e => exact h1
  | none =>
    exact ev_push_len_le s1 k fd t .write
      (evRegisterFlags (i.targets Interest.writableBit) o) h1

lemma deregister_len_le (s : Selector) (k : Kernel) (fd : Nat)
    (h : s.changes.events.length ≤ eventsCapacity) :
    (s.deregister k fd).1.changes.events.length ≤ eventsCapacity := by
  unfold Selector.deregister
  rcases hp : s.ev_push k fd 0 .read { delete := true } with ⟨s1, oe⟩
  have h1 : s1.changes.events.length ≤ eventsCapacity := by
    have := ev_push_len_le s k fd 0 .read { delete := true } h
    rw [hp] at this
    exact this
  cases oe with
  | some e => exact h1
  | none => exact ev_push_len_le s1 k fd 0 .write { delete := true } h1

lemma applyOp_len_le (k : Kernel) (s : Selector) (op : Op)
    (h : s.changes.events.length ≤ eventsCapacity) :
    (applyOp k s op).changes.events.length ≤ eventsCapacity := by
  cases op with
  | register fd t i o => exact register_len_le s k fd t i o h
  | reregister fd t i o => exact register_len_le s k fd t i o h
  | deregister fd => exact deregister_len_le s k fd h

lemma runOps_len_le (k : Kernel) (ops : List Op) (s : Selector)
    (h : s.changes.events.length ≤ eventsCapacity) :
    (runOps k s ops).changes.events.length ≤ eventsCapacity := by
  induction ops generalizing s with
  | nil => exact h
  | cons op rest ih =>
    exact ih (applyOp k s op) (applyOp_len_le k s op h)

lemma get_rw_eq (ev : KEvent) (evts : Events) (idx : Nat)
    (h : idx < evts.events.length) (hev : evts.events[idx] = ev)
    (hf : ev.filter = .read ∨ ev.filter = .write) :
    evts.get idx = .ok (IoEvent.new
      { readable := ev.filter == EventFilter.read
        writable := ev.filter == EventFilter.write
        hup := ev.flags.eof
        error := ev.flags.eof && decide (ev.fflags ≠ 0)
        oob := ev.flags.eof && ev.flags.ooband } ev.udata) := by
  unfold Events.get
  rw [dif_pos h]
  simp only [hev]
  rcases hf with hf | hf <;>
    rw [hf] <;>
    by_cases he : ev.flags.eof <;>
      by_cases hff : ev.fflags = 0 <;>
        by_cases hob : ev.flags.ooband = true <;>
          simp [he, hff, hob, Interest.union, Interest.hinted,
            Interest.readableBit, Interest.writableBit, Interest.hupBit,
            Interest.errorBit, Interest.oobBit, IoEvent.new]

lemma get_ok_token (evts : Events) (idx : Nat) (e : IoEvent)
    (hg : evts.get idx = .ok e) :
    ∃ h : idx < evts.events.length, e.token = evts.events[idx].udata := by
  unfold Events.get at hg
  split at hg
  next h =>
    refine ⟨h, ?_⟩
    dsimp only at hg
    split at hg
    · simp at hg
    · cases hg
      rfl
  next h => simp at hg

deriving instance DecidableEq for Except

/-- A kernel oracle that always fails with errno `e`. -/
def errKernel (e : Errno) : Kernel := ⟨fun _ _ _ _ => .error e⟩

/-- A read-filter kevent for registration (ident 4, token 5). -/
def kevR : KEvent := { ident := 4, filter := .read, udata := 5 }

/-- A write-filter kevent for the same registration as `kevR`. -/
def kevW : KEvent := { ident := 4, filter := .write, udata := 5 }

/-- A read kevent carrying `EV_OOBAND` without `EV_EOF`. -/
def kevOob : KEvent :=
  { filter := .read, flags := { ooband := true }, udata := 3 }

/-- A read kevent carrying `EV_EOF`, `EV_OOBAND` and a non-empty `fflags`. -/
def kevEofAll : KEvent :=
  { filter := .read, flags := { eof := true, ooband := true },
    fflags := 2, udata := 9 }

/-- A kevent whose filter is neither `EVFILT_READ` nor `EVFILT_WRITE`. -/
def kevOther : KEvent := { filter := .other 3 }

/-- A selector whose change buffer is exactly full. -/
def sFull : Selector := ⟨0, ⟨List.replicate eventsCapacity kevR⟩⟩

/-- A selector with one pending change record. -/
def sPend : Selector := ⟨0, ⟨[kevR]⟩⟩

/-- Claim C1 is false on the code: `Events::get` performs no coalescing.
A batch holding the two kevents of one registration (same ident 4, same
udata 5, one per filter) yields two distinct `IoEvent`s with the same
token, neither carrying the union of the two interests. -/
theorem c1_counterexample :
    (Events.mk [kevR, kevW]).len = 2 ∧
    kevR.ident = kevW.ident ∧ kevR.udata = kevW.udata ∧
    (Events.mk [kevR, kevW]).get 0 =
      .ok (IoEvent.new { readable := true } 5) ∧
    (Events.mk [kevR, kevW]).get 1 =
      .ok (IoEvent.new { writable := true } 5) ∧
    (Events.mk [kevR, kevW]).get 0 ≠
      .ok (IoEvent.new { readable := true, writable := true } 5) ∧
    (Events.mk [kevR, kevW]).get 1 ≠
      .ok (IoEvent.new { readable := true, writable := true } 5) := by
  refine ⟨rfl, rfl, rfl, rfl, rfl, by decide, by decide⟩

/-- Claim C1 (amended): reading a batch via `Events::get` translates each
kevent separately; when kqueue delivers two kevents for the same
registration in one wait (same ident and token, one per filter), the batch
yields two Events with that token, each carrying only its own filter's
interest — no merging occurs. -/
theorem c1_amended_no_coalescing (ident t : Nat) :
    (Events.mk [ev_set ident .read {} 0 t,
                ev_set ident .write {} 0 t]).get 0 =
      .ok (IoEvent.new { readable := true } t) ∧
    (Events.mk [ev_set ident .read {} 0 t,
                ev_set ident .write {} 0 t]).get 1 =
      .ok (IoEvent.new { writable := true } t) :=
  ⟨rfl, rfl⟩

/-- Claim C2: when the change buffer has room for both records,
`Selector::register` appends exactly two change records — read filter then
write filter — each with `EV_ADD`, `EV_ENABLE` iff the matching Interest
bit is set and `EV_DISABLE` otherwise, `EV_CLEAR` iff EDGE is in the opts,
`EV_ONESHOT` iff ONESHOT is in the opts, and the caller's token in
`udata`. -/
theorem c2_register_appends_two_records (s : Selector) (k : Kernel)
    (fd t : Nat) (i : Interest) (o : PollOpt)
    (h : s.changes.events.length + 2 ≤ eventsCapacity) :
    s.register k fd t i o =
      ({ s with changes := ⟨s.changes.events ++
          [ev_set fd .read
            { add := true, enable := i.readable, disable := !i.readable,
              clear := o.edge, oneshot := o.oneshot } 0 t,
           ev_set fd .write
            { add := true, enable := i.writable, disable := !i.writable,
              clear := o.edge, oneshot := o.oneshot } 0 t]⟩ }, none) := by
  rw [register_spec s k fd t i o h, evRegisterFlags_eq, evRegisterFlags_eq]

/-- Witness for C2 at a concrete registration. -/
theorem c2_witness :
    (Selector.new 3).register okKernel 4 7 { readable := true }
        { edge := true } =
      ({ kq := 3, changes := ⟨[
          ev_set 4 .read
            { add := true, enable := true, disable := false,
              clear := true } 0 7,
          ev_set 4 .write
            { add := true, enable := false, disable := true,
              clear := true } 0 7]⟩ }, none) := by
  have := c2_register_appends_two_records (Selector.new 3) okKernel 4 7
    { readable := true } { edge := true } (by decide)
  simpa using this

/-- Claim C3 is false on the code: `EV_OOBAND` is only honoured inside the
`EV_EOF` branch.  A read kevent with `EV_OOBAND` set but `EV_EOF` clear
yields an Event without OUT_OF_BAND. -/
theorem c3_counterexample :
    kevOob.flags.ooband = true ∧ kevOob.flags.eof = false ∧
    (Events.mk [kevOob]).get 0 = .ok (IoEvent.new { readable := true } 3) ∧
    (Events.mk [kevOob]).get 0 ≠
      .ok (IoEvent.new { readable := true, oob := true } 3) := by
  refine ⟨rfl, rfl, rfl, by decide⟩

/-- Claim C3 (amended): for every in-range kevent whose filter is read or
write, the Interest set of the Event produced by `Events::get` is exactly:
READABLE iff the filter is `EVFILT_READ`, WRITABLE iff it is
`EVFILT_WRITE`, HANGUP iff `EV_EOF` is set, ERROR iff `EV_EOF` is set and
`fflags` is non-zero, and OUT_OF_BAND iff both `EV_EOF` and `EV_OOBAND`
are set. -/
theorem c3_amended_translation (ev : KEvent) (evts : Events) (idx : Nat)
    (h : idx < evts.events.length) (hev : evts.events[idx] = ev)
    (hf : ev.filter = .read ∨ ev.filter = .write) :
    evts.get idx = .ok (IoEvent.new
      { readable := ev.filter == EventFilter.read
        writable := ev.filter == EventFilter.write
        hup := ev.flags.eof
        error := ev.flags.eof && decide (ev.fflags ≠ 0)
        oob := ev.flags.eof && ev.flags.ooband } ev.udata) :=
  get_rw_eq ev evts idx h hev hf

/-- Witness for C3 at a concrete kevent with `EV_EOF`, non-empty `fflags`
and `EV_OOBAND`. -/
theorem c3_witness :
    (Events.mk [kevEofAll]).get 0 =
      .ok (IoEvent.new
        { readable := true, hup := true, error := true, oob := true } 9) := by
  have := c3_amended_translation kevEofAll (Events.mk [kevEofAll]) 0
    (by decide) rfl (Or.inl rfl)
  simpa using this

/-- Claim C4 is false on the code: `Selector::register` never validates the
opts.  With EDGE and LEVEL both set (and likewise with neither set) it
returns no error and appends the two change records. -/
theorem c4_counterexample :
    ((Selector.new 0).register okKernel 4 7 Interest.readableBit
        { edge := true, level := true }).2 = none ∧
    ((Selector.new 0).register okKernel 4 7 Interest.readableBit
        { edge := true, level := true }).1.changes.events.length = 2 ∧
    ((Selector.new 0).register okKernel 4 7 Interest.readableBit {}).2 =
      none := by
  refine ⟨rfl, rfl, rfl⟩

/-- Claim C4 (amended): the kqueue backend performs no PollOpt validation
at register time: whether the opts contain both EDGE and LEVEL or neither,
`register` succeeds (given buffer room) and appends its two records, so no
InvalidArgument error is ever produced. -/
theorem c4_amended_no_validation (s : Selector) (k : Kernel) (fd t : Nat)
    (i : Interest) (o : PollOpt)
    (ho : (o.edge = true ∧ o.level = true) ∨
          (o.edge = false ∧ o.level = false))
    (h : s.changes.events.length + 2 ≤ eventsCapacity) :
    (s.register k fd t i o).2 = none ∧
    (s.register k fd t i o).1.changes.events.length =
      s.changes.events.length + 2 := by
  rw [register_spec s k fd t i o h]
  simp

/-- Witness for C4 with EDGE and LEVEL both supplied. -/
theorem c4_witness :
    ((Selector.new 0).register okKernel 4 7 Interest.readableBit
        { edge := true, level := true }).2 = none ∧
    ((Selector.new 0).register okKernel 4 7 Interest.readableBit
        { edge := true, level := true }).1.changes.events.length =
      (Selector.new 0).changes.events.length + 2 :=
  c4_amended_no_validation (Selector.new 0) okKernel 4 7
    Interest.readableBit { edge := true, level := true }
    (Or.inl ⟨rfl, rfl⟩) (by decide)

/-- Claim C5: across every sequence of register/reregister/deregister
calls the change buffer's length never exceeds its capacity (1024); and
when the buffer is full, a successful zero-timeout flush clears it before
the new record is appended. -/
theorem c5_change_buffer_bounded :
    (∀ (k : Kernel) (ops : List Op) (s : Selector),
        s.changes.events.length ≤ eventsCapacity →
        (runOps k s ops).changes.events.length ≤ eventsCapacity) ∧
    (∀ (k : Kernel) (s : Selector) (fd t : Nat) (f : EventFilter)
        (fl : EventFlag) (r : List KEvent),
        s.changes.full = true →
        k.call s.kq s.changes.events 0 0 = .ok r →
        s.ev_push k fd t f fl =
          ({ s with changes := ⟨[ev_set fd f fl 0 t]⟩ }, none)) := by
  constructor
  · exact fun k ops s h => runOps_len_le k ops s h
  · intro k s fd t f fl r hfull hcall
    simp [Selector.ev_push, Selector.maybe_flush_changes, hfull, hcall]

/-- Witness for C5: a concrete operation sequence from an empty buffer,
and a push into a concretely full buffer. -/
theorem c5_witness :
    (runOps okKernel (Selector.new 0)
        [Op.register 1 2 { readable := true } { level := true },
         Op.deregister 1]).changes.events.length ≤ eventsCapacity ∧
    sFull.ev_push okKernel 4 7 .read { add := true } =
      ({ sFull with changes := ⟨[ev_set 4 .read { add := true } 0 7]⟩ },
       none) := by
  constructor
  · exact c5_change_buffer_bounded.1 okKernel
      [Op.register 1 2 { readable := true } { level := true },
       Op.deregister 1] (Selector.new 0) (by decide)
  · exact c5_change_buffer_bounded.2 okKernel sFull 4 7 .read
      { add := true } []
      (by simp [sFull, Events.full, Events.len]) rfl

/-- Claim C6: whenever `Selector::select` returns without error, the
change buffer is empty — the pending changes went into the same `kevent`
call as the wait, and the buffer was cleared. -/
theorem c6_select_clears_changes (s : Selector) (k : Kernel)
    (evts : Events) (t : Nat) (s' : Selector) (evts' : Events)
    (h : s.select k evts t = (s', evts', none)) :
    s'.changes.events = [] := by
  unfold Selector.select at h
  split at h
  · simp at h
  · simp only [Prod.mk.injEq, and_true] at h
    rw [← h.1]

/-- Witness for C6: a concrete `select` on a selector with one pending
change record. -/
theorem c6_witness : (Selector.mk 0 ⟨[]⟩).changes.events = [] :=
  c6_select_clears_changes sPend okKernel Events.new 7
    (Selector.mk 0 ⟨[]⟩) ⟨[]⟩ rfl

/-- Claim C7 is false on the code as far as its EBADF exception goes:
`maybe_flush_changes` has no EBADF special case.  On a full buffer whose
flush fails with EBADF, the error is surfaced and the buffer is left
intact — nothing is purged. -/
theorem c7_counterexample :
    sFull.maybe_flush_changes (errKernel .ebadf) =
      (sFull, some .ebadf) := by
  have hfull : sFull.changes.full = true := by
    simp [sFull, Events.full, Events.len]
  simp [Selector.maybe_flush_changes, hfull, errKernel]

/-- Claim C7 (amended): if the kernel entry performed during a flush of
the change buffer fails, the flush returns the error and the change
buffer is left intact (same contents as before the attempt) — uniformly
for every errno, EBADF included; no registration is purged. -/
theorem c7_amended_flush_error_intact (s : Selector) (k : Kernel)
    (e : Errno) (hfull : s.changes.full = true)
    (hcall : k.call s.kq s.changes.events 0 0 = .error e) :
    s.maybe_flush_changes k = (s, some e) := by
  simp [Selector.maybe_flush_changes, hfull, hcall]

/-- Witness for C7 on a concretely full buffer and a failing kernel. -/
theorem c7_witness :
    sFull.maybe_flush_changes (errKernel (.other 12)) =
      (sFull, some (.other 12)) :=
  c7_amended_flush_error_intact sFull (errKernel (.other 12)) (.other 12)
    (by simp [sFull, Events.full, Events.len]) rfl

/-- Claim C8 is false on the code: an EINTR from the kernel wait is
propagated by `try!`, so `select` surfaces the error instead of returning
`Ok` with an empty batch. -/
theorem c8_counterexample :
    sPend.select (errKernel .eintr) Events.new 100 =
      (sPend, Events.new, some .eintr) ∧
    (sPend.select (errKernel .eintr) Events.new 100).2.2 ≠ none := by
  exact ⟨rfl, by simp [Selector.select, errKernel]⟩

/-- Claim C8 (amended): every kernel error from the wait inside
`Selector::select` — EINTR included — is surfaced to the caller, with the
change buffer and the caller's event vector left untouched; there is no
EINTR retry or empty-`Ok` translation. -/
theorem c8_amended_eintr_surfaced (s : Selector) (k : Kernel)
    (evts : Events) (t : Nat) (e : Errno)
    (hcall : k.call s.kq s.changes.events eventsCapacity t = .error e) :
    s.select k evts t = (s, evts, some e) := by
  simp [Selector.select, hcall]

/-- Witness for C8 with a concrete interrupted wait. -/
theorem c8_witness :
    (Selector.new 1).select (errKernel .eintr) (Events.mk [kevW]) 0 =
      (Selector.new 1, Events.mk [kevW], some .eintr) :=
  c8_amended_eintr_surfaced (Selector.new 1) (errKernel .eintr)
    (Events.mk [kevW]) 0 .eintr rfl

/-- Claim C9: tokens round-trip verbatim.  A successful `ev_push` appends
a record whose `udata` is exactly the caller's token, and `Events::get`
returns as the event's token exactly the `udata` of the kevent it
translated. -/
theorem c9_token_roundtrip (k : Kernel) (s s' : Selector) (fd t : Nat)
    (f : EventFilter) (fl : EventFlag)
    (hp : s.ev_push k fd t f fl = (s', none))
    (evts : Events) (idx : Nat) (e : IoEvent)
    (hg : evts.get idx = .ok e) :
    (∃ pre, s'.changes.events = pre ++ [ev_set fd f fl 0 t] ∧
      (ev_set fd f fl 0 t).udata = t) ∧
    ∃ h : idx < evts.events.length,
      e.token = evts.events[idx].udata := by
  constructor
  · unfold Selector.ev_push at hp
    rcases hm : s.maybe_flush_changes k with ⟨s1, oe⟩
    rw [hm] at hp
    cases oe with
    | some e1 => simp at hp
    | none =>
      simp only [Prod.mk.injEq, and_true] at hp
      refine ⟨s1.changes.events, ?_, rfl⟩
      rw [← hp]
  · exact get_ok_token evts idx e hg

/-- Witness for C9: a concrete push and a concrete translation. -/
theorem c9_witness :
    (∃ pre, (((Selector.new 0).ev_push okKernel 4 7 .read
        { add := true }).1).changes.events =
      pre ++ [ev_set 4 .read { add := true } 0 7] ∧
      (ev_set 4 .read { add := true } 0 7).udata = 7) ∧
    ∃ h : 0 < (Events.mk [kevR]).events.length,
      (IoEvent.new { readable := true } 5).token =
        (Events.mk [kevR]).events[0].udata := by
  exact c9_token_roundtrip okKernel (Selector.new 0)
    (((Selector.new 0).ev_push okKernel 4 7 .read { add := true }).1)
    4 7 .read { add := true } rfl (Events.mk [kevR]) 0
    (IoEvent.new { readable := true } 5) rfl

/-- Claim C10: `Events::get` yields an `IoEvent` exactly for in-range
indices whose kevent has the read or write filter; out-of-range indices
hit the invalid-index panic, and in-range kevents with any other filter
hit the unexpected-filter panic. -/
theorem c10_get_panic_conditions (evts : Events) (idx : Nat) :
    (evts.events.length ≤ idx → evts.get idx = .error .invalidIndex) ∧
    (∀ h : idx < evts.events.length, ∀ n,
      evts.events[idx].filter = .other n →
        evts.get idx = .error (.badFilter (.other n))) ∧
    (∀ h : idx < evts.events.length,
      (evts.events[idx].filter = .read ∨
       evts.events[idx].filter = .write) →
      ∃ e, evts.get idx = .ok e) := by
  refine ⟨?_, ?_, ?_⟩
  · intro hle
    unfold Events.get
    rw [dif_neg (by omega)]
  · intro h n hn
    unfold Events.get
    rw [dif_pos h]
    simp [hn]
  · intro h hf
    exact ⟨_, get_rw_eq evts.events[idx] evts idx h rfl hf⟩

/-- Witness for C10: the three behaviours at concrete batches. -/
theorem c10_witness :
    (Events.mk [kevOther]).get 0 = .error (.badFilter (.other 3)) ∧
    (Events.mk [kevOther]).get 1 = .error .invalidIndex ∧
    ∃ e, (Events.mk [kevR]).get 0 = .ok e := by
  refine ⟨?_, ?_, ?_⟩
  · exact (c10_get_panic_conditions (Events.mk [kevOther]) 0).2.1
      (by decide) 3 rfl
  · exact (c10_get_panic_conditions (Events.mk [kevOther]) 1).1 (by decide)
  · exact (c10_get_panic_conditions (Events.mk [kevR]) 0).2.2
      (by decide) (Or.inl rfl)
